import Mathlib

/-!
Verification of the async MQTT 5 client core (async-mqtt5).

The development shallowly embeds the client facade `mqtt_client`
(include/async_mqtt5/mqtt_client.hpp), the cancellation test matrix
(test/integration/cancellation.cpp), and — where the implementing
`detail::*` operations are not part of the repository snapshot — models
of the operations taken from the specification's words. Each modelled
definition says so in its doc comment.
-/

namespace AsyncMqtt5

/-- Error codes visible to users, from the error enumeration the client
facade documents (`boost::system::error_code` values plus the
`client::error` codes named in mqtt_client.hpp's error lists). -/
inductive ErrorCode where
  | success
  | operation_aborted
  | channel_cancelled
  | no_recovery
  | pid_overrun
  | qos_not_supported
  | retain_not_available
  | topic_alias_maximum_reached
  | packet_too_large
  | session_expired
  deriving DecidableEq, Repr

/-- MQTT reason codes as delivered to completion handlers.
`reason_codes::empty` is the sentinel the library hands back when no
broker-supplied reason code exists; a real code carries its byte value. -/
inductive ReasonCode where
  | empty
  | code (v : Nat)
  deriving DecidableEq, Repr

/-- Reason code 0x00 of the DISCONNECT packet,
`disconnect_rc_e::normal_disconnection`. -/
def normal_disconnection : ReasonCode := ReasonCode.code 0

/- ### Publish pre-send validation (spec section 4.8)

The publish pipeline lives in `detail::publish_send_op`
(impl/publish_send_op.hpp), which is not part of the repository snapshot;
only its error lists in mqtt_client.hpp are. The definitions below are
modelled from the spec. -/

/-- Server limits taken from CONNACK properties (spec section 3,
`server_limits`), restricted to the fields the publish validation reads. -/
structure ServerLimits where
  maximum_qos : Nat
  retain_available : Bool
  topic_alias_maximum : Nat
  maximum_packet_size : Nat
  deriving DecidableEq, Repr

/-- Arguments of one `async_publish` call: topic, payload, requested QoS
level (0, 1 or 2), the retain flag, an optional topic alias from the
PUBLISH properties, and the encoded byte length of the remaining
properties. -/
structure PublishRequest where
  topic : String
  payload : String
  qos : Nat
  retain : Bool
  topicAlias : Option Nat
  propsLen : Nat
  deriving DecidableEq, Repr

/-- Modelled from the spec: byte length of the variable-length integer
encoding (spec section 4.1) — little-endian base-128, 1 byte up to 127,
2 up to 16383, 3 up to 2097151, 4 up to 268435455. -/
def varintLen (n : Nat) : Nat :=
  if n ≤ 127 then 1
  else if n ≤ 16383 then 2
  else if n ≤ 2097151 then 3
  else 4

/-- Modelled from the spec: the remaining length of an encoded PUBLISH
packet (spec sections 4.1 and 4.8) — u16-prefixed topic, a packet
identifier when QoS > 0, the varint-prefixed property block, and the
payload. -/
def publishRemainingLength (r : PublishRequest) : Nat :=
  2 + r.topic.length + (if 0 < r.qos then 2 else 0)
    + varintLen r.propsLen + r.propsLen + r.payload.length

/-- Modelled from the spec: full encoded size of a PUBLISH packet — one
fixed-header byte, the varint remaining length, and the remaining bytes. -/
def publishEncodedSize (r : PublishRequest) : Nat :=
  1 + varintLen (publishRemainingLength r) + publishRemainingLength r

/-- True when the request carries a topic alias above the server's
topic-alias maximum. -/
def aliasExceeds (lim : ServerLimits) (r : PublishRequest) : Bool :=
  match r.topicAlias with
  | some a => lim.topic_alias_maximum < a
  | none => false

/-- Modelled from the spec: the fail-fast pre-send validation table of
spec section 4.8 for publish, rows checked in the order listed:
QoS above `maximum_qos`, retain against `retain_available`, topic alias
against `topic_alias_maximum`, encoded size against
`maximum_packet_size`. The first violated row's error is returned. -/
def validatePublish (lim : ServerLimits) (r : PublishRequest) : Option ErrorCode :=
  if lim.maximum_qos < r.qos then some ErrorCode.qos_not_supported
  else if r.retain && !lim.retain_available then some ErrorCode.retain_not_available
  else if aliasExceeds lim r then some ErrorCode.topic_alias_maximum_reached
  else if lim.maximum_packet_size < publishEncodedSize r then some ErrorCode.packet_too_large
  else none

/-- Outcome of the pre-send phase of a publish: either rejected by
validation (before a packet identifier is acquired and before any byte is
written), or sent — recording whether a packet identifier was acquired
(QoS > 0) and how many bytes went onto the stream. -/
inductive SendOutcome where
  | rejected (e : ErrorCode)
  | sent (pidAcquired : Bool) (bytes : Nat)
  deriving DecidableEq, Repr

/-- Whether the outcome acquired a packet identifier. -/
def SendOutcome.pidTaken : SendOutcome → Bool
  | .rejected _ => false
  | .sent p _ => p

/-- Bytes written to the stream for this PUBLISH. -/
def SendOutcome.bytesWritten : SendOutcome → Nat
  | .rejected _ => 0
  | .sent _ n => n

/-- Modelled from the spec: the pre-send phase of
`detail::publish_send_op::perform` — validate fail-fast without a packet
identifier; only a request passing every row acquires an identifier
(when QoS > 0) and writes its encoding. -/
def publishSend (lim : ServerLimits) (r : PublishRequest) : SendOutcome :=
  match validatePublish lim r with
  | some e => SendOutcome.rejected e
  | none => SendOutcome.sent (decide (0 < r.qos)) (publishEncodedSize r)

/-- Helper inputs for the retain-validation results below. -/
def retainLimitsW : ServerLimits := ⟨2, false, 10, 1000000⟩

/-- A retain publish within every other server limit. -/
def retainRequestW : PublishRequest := ⟨"t", "p", 1, true, none, 0⟩

/-- Limits rejecting both the QoS and the retain flag. -/
def retainQosLimits : ServerLimits := ⟨0, false, 10, 1000000⟩

/-- A QoS 2 retain publish against `retainQosLimits`. -/
def retainQosRequest : PublishRequest := ⟨"t", "p", 2, true, none, 0⟩

/-- Limits whose maximum packet size is below any PUBLISH encoding. -/
def tooLargeLimitsW : ServerLimits := ⟨2, true, 10, 5⟩

/-- A small publish whose 9-byte encoding still exceeds `tooLargeLimitsW`. -/
def tooLargeRequestW : PublishRequest := ⟨"t", "p", 1, false, none, 0⟩

/-- Limits rejecting both the QoS level and the packet size. -/
def tooLargeQosLimits : ServerLimits := ⟨0, true, 10, 5⟩

/-- C4 (amended): a publish with retain set, against a server whose CONNACK
advertised retain_available = false, and whose QoS passes the earlier
validation row, is rejected with `retain_not_available` before a packet
identifier is acquired and before any byte is written. -/
theorem publish_retain_rejected (lim : ServerLimits) (r : PublishRequest)
    (hq : r.qos ≤ lim.maximum_qos) (hr : r.retain = true)
    (ha : lim.retain_available = false) :
    publishSend lim r = SendOutcome.rejected ErrorCode.retain_not_available
    ∧ (publishSend lim r).pidTaken = false
    ∧ (publishSend lim r).bytesWritten = 0 := by
  have h1 : ¬ lim.maximum_qos < r.qos := Nat.not_lt.mpr hq
  simp [publishSend, validatePublish, h1, hr, ha,
    SendOutcome.pidTaken, SendOutcome.bytesWritten]

/-- C4 witness: the amended statement evaluated at a concrete QoS 1 retain
publish against a broker that forbids retain. -/
theorem publish_retain_rejected_witness :
    retainRequestW.qos ≤ retainLimitsW.maximum_qos
    ∧ retainRequestW.retain = true
    ∧ retainLimitsW.retain_available = false
    ∧ (publishSend retainLimitsW retainRequestW
          = SendOutcome.rejected ErrorCode.retain_not_available
       ∧ (publishSend retainLimitsW retainRequestW).pidTaken = false
       ∧ (publishSend retainLimitsW retainRequestW).bytesWritten = 0) :=
  ⟨by decide, by decide, by decide,
    publish_retain_rejected retainLimitsW retainRequestW
      (by decide) (by decide) (by decide)⟩

/-- C4 counterexample: a QoS 2 retain publish against a broker with
maximum_qos = 0 and retain_available = false has retain set while retain is
unavailable, yet the fail-fast validation completes it with
`qos_not_supported`, not `retain_not_available`. -/
theorem publish_retain_rejected_cex :
    retainQosRequest.retain = true
    ∧ retainQosLimits.retain_available = false
    ∧ publishSend retainQosLimits retainQosRequest
        ≠ SendOutcome.rejected ErrorCode.retain_not_available
    ∧ publishSend retainQosLimits retainQosRequest
        = SendOutcome.rejected ErrorCode.qos_not_supported := by
  decide

/-- C5 (amended): a publish whose encoded size exceeds the server's
maximum_packet_size, and which passes the earlier validation rows (QoS,
retain, topic alias), is rejected with `packet_too_large` before a packet
identifier is acquired and before any byte is written. -/
theorem publish_too_large_rejected (lim : ServerLimits) (r : PublishRequest)
    (hq : r.qos ≤ lim.maximum_qos)
    (hr : (r.retain && !lim.retain_available) = false)
    (ha : aliasExceeds lim r = false)
    (hs : lim.maximum_packet_size < publishEncodedSize r) :
    publishSend lim r = SendOutcome.rejected ErrorCode.packet_too_large
    ∧ (publishSend lim r).pidTaken = false
    ∧ (publishSend lim r).bytesWritten = 0 := by
  have h1 : ¬ lim.maximum_qos < r.qos := Nat.not_lt.mpr hq
  simp [publishSend, validatePublish, h1, hr, ha, hs,
    SendOutcome.pidTaken, SendOutcome.bytesWritten]

/-- C5 witness: the amended statement evaluated at a concrete publish whose
9-byte encoding exceeds a 5-byte maximum packet size. -/
theorem publish_too_large_rejected_witness :
    tooLargeRequestW.qos ≤ tooLargeLimitsW.maximum_qos
    ∧ (tooLargeRequestW.retain && !tooLargeLimitsW.retain_available) = false
    ∧ aliasExceeds tooLargeLimitsW tooLargeRequestW = false
    ∧ tooLargeLimitsW.maximum_packet_size < publishEncodedSize tooLargeRequestW
    ∧ (publishSend tooLargeLimitsW tooLargeRequestW
          = SendOutcome.rejected ErrorCode.packet_too_large
       ∧ (publishSend tooLargeLimitsW tooLargeRequestW).pidTaken = false
       ∧ (publishSend tooLargeLimitsW tooLargeRequestW).bytesWritten = 0) :=
  ⟨by decide, by decide, by decide, by decide,
    publish_too_large_rejected tooLargeLimitsW tooLargeRequestW
      (by decide) (by decide) (by decide) (by decide)⟩

/-- C5 counterexample: an oversize QoS 1 publish against a broker with
maximum_qos = 0 exceeds the maximum packet size, yet the fail-fast
validation completes it with `qos_not_supported`, not `packet_too_large`. -/
theorem publish_too_large_rejected_cex :
    tooLargeQosLimits.maximum_packet_size < publishEncodedSize tooLargeRequestW
    ∧ publishSend tooLargeQosLimits tooLargeRequestW
        ≠ SendOutcome.rejected ErrorCode.packet_too_large
    ∧ publishSend tooLargeQosLimits tooLargeRequestW
        = SendOutcome.rejected ErrorCode.qos_not_supported := by
  decide

/- ### Client lifecycle and client-wide cancellation (spec sections 3, 4.10, 5)

`detail::client_service::cancel` is not part of the repository snapshot;
the facade's `mqtt_client::cancel` (mqtt_client.hpp lines 125-136) posts
it, and the destructor calls `cancel()` (lines 86-93). The state model
below is modelled from the spec; the cancellation error each handler
receives is `operation_aborted`, as the facade documents and as every
enabled case of test/integration/cancellation.cpp asserts. -/

/-- The kinds of asynchronous operation a client can have pending: the
run/handshake driver, a publish at each QoS, a subscribe or unsubscribe
with its topic filters, a receive, and the keepalive ping. -/
inductive OpKind where
  | runOp
  | publishQos0
  | publishQos1
  | publishQos2
  | subscribeOp (filters : List String)
  | unsubscribeOp (topics : List String)
  | receiveOp
  | pingOp
  deriving DecidableEq, Repr

/-- A value handed to a completion handler, one constructor per
completion signature of spec section 6: plain error (run, QoS 0 publish,
ping, disconnect); error with one reason code (QoS 1/2 publish); error
with a reason-code vector (subscribe, unsubscribe); error with topic and
payload (receive). -/
inductive OpResult where
  | simpleR (e : ErrorCode)
  | pubAckR (e : ErrorCode) (rc : ReasonCode)
  | ackVecR (e : ErrorCode) (rcs : List ReasonCode)
  | recvR (e : ErrorCode) (topic payload : String)
  deriving DecidableEq, Repr

/-- The error component of a completion value. -/
def OpResult.errorOf : OpResult → ErrorCode
  | .simpleR e => e
  | .pubAckR e _ => e
  | .ackVecR e _ => e
  | .recvR e _ _ => e

/-- Modelled from the spec: the completion value client-wide cancellation
hands a pending operation of each kind — the cancellation error
`operation_aborted` (mqtt_client.hpp documents it for cancel; every
enabled cancellation test asserts it), the `empty` sentinel where a
reason code is owed, one sentinel per requested topic filter where a
vector is owed, and empty topic and payload for a receive. -/
def cancelResult : OpKind → OpResult
  | .runOp => .simpleR .operation_aborted
  | .publishQos0 => .simpleR .operation_aborted
  | .publishQos1 => .pubAckR .operation_aborted .empty
  | .publishQos2 => .pubAckR .operation_aborted .empty
  | .subscribeOp fs => .ackVecR .operation_aborted (List.replicate fs.length .empty)
  | .unsubscribeOp ts => .ackVecR .operation_aborted (List.replicate ts.length .empty)
  | .receiveOp => .recvR .operation_aborted "" ""
  | .pingOp => .simpleR .operation_aborted

/-- One pending asynchronous operation: a handle distinguishing the call,
and its kind. -/
structure PendingOp where
  id : Nat
  kind : OpKind
  deriving DecidableEq, Repr

/-- Client lifecycle states of spec section 3:
idle, running, cancelled. -/
inductive Lifecycle where
  | idle
  | running
  | cancelled
  deriving DecidableEq, Repr

/-- The client state the cancellation claims need: the lifecycle state,
the operations currently pending, and the trace of completion-handler
invocations already delivered, in order. -/
structure ClientState where
  lifecycle : Lifecycle
  pending : List PendingOp
  trace : List (Nat × OpResult)
  deriving DecidableEq, Repr

/-- How often the completion handler of operation `i` has been invoked. -/
def firedCount (s : ClientState) (i : Nat) : Nat :=
  s.trace.countP (fun p => p.1 == i)

/-- The handles of the pending operations. -/
def pendingIds (s : ClientState) : List Nat :=
  s.pending.map PendingOp.id

/-- A well-formed client state: pending operations carry distinct handles,
and no pending operation's handler has already been invoked (the spec's
exactly-once contract, spec sections 5 and 9: an operation completes by
being removed from the pending table before its handler runs). -/
def ClientStateWf (s : ClientState) : Prop :=
  (pendingIds s).Nodup ∧ ∀ op ∈ s.pending, firedCount s op.id = 0

/-- Modelled from the spec: `client_service::cancel` as `mqtt_client::cancel`
posts it — the client becomes cancelled, every pending operation is removed
from the pending table, and each one's handler is invoked once with its
cancellation completion value. -/
def cancelStep (s : ClientState) : ClientState :=
  { lifecycle := Lifecycle.cancelled,
    pending := [],
    trace := s.trace ++ s.pending.map (fun op => (op.id, cancelResult op.kind)) }

/-- mqtt_client's destructor (mqtt_client.hpp lines 86-93) runs
`cancel()`; destruction performs exactly the cancel step. -/
def destructorStep (s : ClientState) : ClientState :=
  cancelStep s

/-- The cancellation completion value always carries the cancellation
error `operation_aborted`. -/
theorem cancelResult_errorOf (k : OpKind) :
    (cancelResult k).errorOf = ErrorCode.operation_aborted := by
  cases k <;> rfl

/-- Counting hits of one handle in the completions cancel appends equals
counting that handle among the pending operations. -/
theorem countP_cancelCompletions (l : List PendingOp) (i : Nat) :
    (l.map (fun op => (op.id, cancelResult op.kind))).countP (fun p => p.1 == i)
      = (l.map PendingOp.id).count i := by
  rw [List.countP_map, List.count, List.countP_map]
  rfl

/-- After the cancel step, the handler of an operation pending in a
well-formed state has been invoked exactly once. -/
theorem cancelStep_fires_once (s : ClientState) (hs : ClientStateWf s)
    (op : PendingOp) (hop : op ∈ s.pending) :
    firedCount (cancelStep s) op.id = 1 := by
  obtain ⟨hnodup, hzero⟩ := hs
  have hmem : op.id ∈ pendingIds s := List.mem_map_of_mem PendingOp.id hop
  have hcount : (pendingIds s).count op.id = 1 :=
    List.count_eq_one_of_mem hnodup hmem
  unfold firedCount cancelStep
  rw [List.countP_append, countP_cancelCompletions]
  have h0 : firedCount s op.id = 0 := hzero op hop
  unfold firedCount at h0
  rw [h0]
  simpa [pendingIds] using hcount

/-- After the cancel step, the cancellation completion value of a pending
operation is in the delivered trace. -/
theorem cancelStep_mem_trace (s : ClientState) (op : PendingOp)
    (hop : op ∈ s.pending) :
    (op.id, cancelResult op.kind) ∈ (cancelStep s).trace := by
  unfold cancelStep
  exact List.mem_append_right _
    (List.mem_map_of_mem (fun op => (op.id, cancelResult op.kind)) hop)

/-- After the cancel step nothing is pending and the client is cancelled. -/
theorem cancelStep_quiesced (s : ClientState) :
    (cancelStep s).pending = [] ∧ (cancelStep s).lifecycle = Lifecycle.cancelled :=
  ⟨rfl, rfl⟩

/-- A concrete running client with one pending operation of each user-facing
kind, nothing completed yet. -/
def cancelStateW : ClientState :=
  ⟨Lifecycle.running,
   [⟨1, OpKind.runOp⟩, ⟨2, OpKind.publishQos1⟩,
    ⟨3, OpKind.subscribeOp ["topic"]⟩, ⟨4, OpKind.unsubscribeOp ["topic"]⟩,
    ⟨5, OpKind.receiveOp⟩, ⟨6, OpKind.pingOp⟩],
   []⟩

/-- `cancelStateW` is well formed. -/
theorem cancelStateW_wf : ClientStateWf cancelStateW := by
  unfold ClientStateWf pendingIds firedCount
  decide

/-- C1: after client-wide cancel, an operation pending at that moment — of
any kind — has its completion handler invoked exactly once, its completion
value carries the cancellation error `operation_aborted`, and it is no
longer pending. -/
theorem cancel_completes_pending_exactly_once (s : ClientState)
    (hs : ClientStateWf s) (op : PendingOp) (hop : op ∈ s.pending) :
    firedCount (cancelStep s) op.id = 1
    ∧ (op.id, cancelResult op.kind) ∈ (cancelStep s).trace
    ∧ (cancelResult op.kind).errorOf = ErrorCode.operation_aborted
    ∧ (cancelStep s).pending = [] :=
  ⟨cancelStep_fires_once s hs op hop, cancelStep_mem_trace s op hop,
    cancelResult_errorOf op.kind, rfl⟩

/-- C1 witness: the cancel contract evaluated at a concrete running client
with six pending operations, read off at the pending receive. -/
theorem cancel_completes_pending_exactly_once_witness :
    ClientStateWf cancelStateW
    ∧ (firedCount (cancelStep cancelStateW) 5 = 1
       ∧ (5, cancelResult OpKind.receiveOp) ∈ (cancelStep cancelStateW).trace
       ∧ (cancelResult OpKind.receiveOp).errorOf = ErrorCode.operation_aborted
       ∧ (cancelStep cancelStateW).pending = []) :=
  ⟨cancelStateW_wf,
    cancel_completes_pending_exactly_once cancelStateW cancelStateW_wf
      ⟨5, OpKind.receiveOp⟩ (by decide)⟩

/-- C8: destroying the client performs exactly the client-wide cancel step,
so an operation outstanding at destruction has its handler invoked exactly
once with the cancellation error `operation_aborted`. -/
theorem destructor_invokes_cancel (s : ClientState)
    (hs : ClientStateWf s) (op : PendingOp) (hop : op ∈ s.pending) :
    destructorStep s = cancelStep s
    ∧ firedCount (destructorStep s) op.id = 1
    ∧ (op.id, cancelResult op.kind) ∈ (destructorStep s).trace
    ∧ (cancelResult op.kind).errorOf = ErrorCode.operation_aborted :=
  ⟨rfl, cancelStep_fires_once s hs op hop, cancelStep_mem_trace s op hop,
    cancelResult_errorOf op.kind⟩

/-- C8 witness: the destructor contract evaluated at the same concrete
client, read off at the pending QoS 1 publish. -/
theorem destructor_invokes_cancel_witness :
    ClientStateWf cancelStateW
    ∧ (destructorStep cancelStateW = cancelStep cancelStateW
       ∧ firedCount (destructorStep cancelStateW) 2 = 1
       ∧ (2, cancelResult OpKind.publishQos1) ∈ (destructorStep cancelStateW).trace
       ∧ (cancelResult OpKind.publishQos1).errorOf = ErrorCode.operation_aborted) :=
  ⟨cancelStateW_wf,
    destructor_invokes_cancel cancelStateW cancelStateW_wf
      ⟨2, OpKind.publishQos1⟩ (by decide)⟩

/- ### Keepalive ping interval (mqtt_client.hpp lines 39 and 117-123) -/

/-- mqtt_client.hpp line 39:
static constexpr auto read_timeout = std::chrono::seconds(5). -/
def readTimeoutSeconds : Nat := 5

/-- The keep-alive values a session carries: the client-requested
keep-alive of the CONNECT packet and the server keep-alive from CONNACK. -/
structure KeepAliveConfig where
  clientKeepAlive : Nat
  serverKeepAlive : Nat
  deriving DecidableEq, Repr

/-- mqtt_client::run (mqtt_client.hpp lines 117-123): the interval handed
to the ping operation is read_timeout - seconds(1); run() reads no
keep-alive configuration, so the interval is the same for every session. -/
def runPingIntervalSeconds (_cfg : KeepAliveConfig) : Nat :=
  readTimeoutSeconds - 1

/-- The interval claim C3 states, following the spec's words: the
keep-alive used is min(client requested, server keep-alive from CONNACK),
and a ping is submitted every keep-alive minus one second. -/
def specPingIntervalSeconds (cfg : KeepAliveConfig) : Nat :=
  min cfg.clientKeepAlive cfg.serverKeepAlive - 1

/-- C3 (amended): the interval between PINGREQ submissions is the fixed
constant read_timeout - 1s = 4 seconds, independent of the client-requested
and server keep-alive values. -/
theorem run_ping_interval_fixed (cfg : KeepAliveConfig) :
    runPingIntervalSeconds cfg = readTimeoutSeconds - 1
    ∧ runPingIntervalSeconds cfg = 4 :=
  ⟨rfl, rfl⟩

/-- C3 witness: the amended statement at the 60-second keep-alive the
repository's own tests put in their CONNECT packet. -/
theorem run_ping_interval_fixed_witness :
    runPingIntervalSeconds ⟨60, 60⟩ = readTimeoutSeconds - 1
    ∧ runPingIntervalSeconds ⟨60, 60⟩ = 4 :=
  run_ping_interval_fixed ⟨60, 60⟩

/-- C3 counterexample: with a 60-second keep-alive on both sides (the
keep-alive the repository's tests use in CONNECT), the interval run()
hands the ping operation is 4 seconds, not the 59 seconds the claim's
min(client, server) - 1s formula gives. -/
theorem run_ping_interval_fixed_cex :
    runPingIntervalSeconds ⟨60, 60⟩ = 4
    ∧ specPingIntervalSeconds ⟨60, 60⟩ = 59
    ∧ runPingIntervalSeconds ⟨60, 60⟩ ≠ specPingIntervalSeconds ⟨60, 60⟩ := by
  decide

/- ### The cancellation test matrix (test/integration/cancellation.cpp) -/

/-- How a test cancels: the client-wide `c.cancel()` or a per-operation
`signal.emit(terminal)` (cancellation.cpp lines 30-33 and 162-169). -/
inductive CancelType where
  | client_cancel
  | signal_emit
  deriving DecidableEq, Repr

/-- The operation each cancellation test leaves pending
(cancellation.cpp lines 22-28). -/
inductive TestOp where
  | async_run
  | publishT
  | receiveT
  | subscribeT
  | unsubscribeT
  deriving DecidableEq, Repr

/-- The registration state of the ten BOOST_AUTO_TEST_CASE instances of
run_cancel_op_test (cancellation.cpp lines 177-216): every pairing is
enabled except signal_emit with receive, which is registered
boost::unit_test::disabled() under the source comment "hangs". -/
def cancellationTestEnabled : CancelType → TestOp → Bool
  | .signal_emit, .receiveT => false
  | _, _ => true

/-- The error every setup_cancel_op_test_case handler asserts it receives
(cancellation.cpp lines 52, 71, 92, 116, 140): operation_aborted, for the
receive handler included. -/
def cancellationTestAssertedError (_op : TestOp) : ErrorCode :=
  ErrorCode.operation_aborted

/-- The error list mqtt_client.hpp lines 487-490 documents for
async_receive: success and channel_cancelled only. -/
def asyncReceiveDocumentedErrors : List ErrorCode :=
  [ErrorCode.success, ErrorCode.channel_cancelled]

/-- C2 (code_bug record): in the repository's own cancellation matrix the
signal-emit receive case is the one disabled case (comment "hangs") while
its siblings are enabled, and the enabled client-cancel receive case
asserts its handler receives operation_aborted — an error absent from
async_receive's documented error list, which admits only success and
channel_cancelled. -/
theorem receive_cancellation_divergence :
    cancellationTestEnabled CancelType.signal_emit TestOp.receiveT = false
    ∧ cancellationTestEnabled CancelType.client_cancel TestOp.receiveT = true
    ∧ cancellationTestEnabled CancelType.signal_emit TestOp.subscribeT = true
    ∧ cancellationTestEnabled CancelType.signal_emit TestOp.unsubscribeT = true
    ∧ cancellationTestEnabled CancelType.signal_emit TestOp.publishT = true
    ∧ cancellationTestEnabled CancelType.signal_emit TestOp.async_run = true
    ∧ cancellationTestAssertedError TestOp.receiveT = ErrorCode.operation_aborted
    ∧ ErrorCode.operation_aborted ∉ asyncReceiveDocumentedErrors
    ∧ ErrorCode.operation_aborted ≠ ErrorCode.channel_cancelled := by
  decide

/- ### Subscribe, unsubscribe and publish completion values
(spec sections 4.8 and 6)

`detail::subscribe_op`, `detail::unsubscribe_op` and the acknowledgement
half of `detail::publish_send_op` are not part of the repository
snapshot; the completion functions below are modelled from the spec, with
the error-path values pinned by the assertions of
test/integration/cancellation.cpp (reason_codes::empty per requested
entry, lines 104-146 and 286-290). -/

/-- How an operation awaiting a broker acknowledgement ends: the
acknowledgement packet arrives carrying per-entry reason codes, or the
operation is torn down early with an error (cancellation, session
expiry, ...). -/
inductive AckOutcome where
  | ack (rcs : List ReasonCode)
  | aborted (e : ErrorCode)
  deriving DecidableEq, Repr

/-- How a QoS 1 or QoS 2 publish awaiting PUBACK/PUBCOMP ends. -/
inductive PubOutcome where
  | ack (rc : ReasonCode)
  | aborted (e : ErrorCode)
  deriving DecidableEq, Repr

/-- Modelled from the spec: the completion values of a subscribe for the
given topic filters — on SUBACK, success with the broker's per-filter
reason codes; on early error, the error with the `empty` sentinel per
requested filter. -/
def subscribeComplete (filters : List String) (o : AckOutcome) :
    ErrorCode × List ReasonCode :=
  match o with
  | .ack rcs => (ErrorCode.success, rcs)
  | .aborted e => (e, List.replicate filters.length ReasonCode.empty)

/-- Modelled from the spec: the completion values of an unsubscribe,
symmetric to subscribe over UNSUBACK. -/
def unsubscribeComplete (topics : List String) (o : AckOutcome) :
    ErrorCode × List ReasonCode :=
  match o with
  | .ack rcs => (ErrorCode.success, rcs)
  | .aborted e => (e, List.replicate topics.length ReasonCode.empty)

/-- Modelled from the spec: the completion values of a QoS 1 publish on
PUBACK, or of a QoS 2 publish on PUBCOMP — on acknowledgement, success
with its reason code; on early error, the error with the `empty`
sentinel. -/
def publishAckComplete (o : PubOutcome) : ErrorCode × ReasonCode :=
  match o with
  | .ack rc => (ErrorCode.success, rc)
  | .aborted e => (e, ReasonCode.empty)

/-- A broker acknowledgement matching the request: MQTT requires SUBACK
and UNSUBACK to carry one reason code per entry of the request; an early
error carries none. -/
def AckMatches (entries : List String) : AckOutcome → Prop
  | .ack rcs => rcs.length = entries.length
  | .aborted _ => True

/-- C6: a subscribe for n topic filters completes with a reason-code
vector of length exactly n, on a matching SUBACK and on every early-error
path alike. -/
theorem subscribe_reason_vector_length (filters : List String)
    (o : AckOutcome) (h : AckMatches filters o) :
    (subscribeComplete filters o).2.length = filters.length := by
  cases o with
  | ack rcs => simpa [subscribeComplete, AckMatches] using h
  | aborted e => simp [subscribeComplete]

/-- C6 witness: the length contract at the single-filter subscribe of the
cancellation test, torn down by cancellation before any SUBACK. -/
theorem subscribe_reason_vector_length_witness :
    AckMatches ["topic"] (AckOutcome.aborted ErrorCode.operation_aborted)
    ∧ (subscribeComplete ["topic"]
        (AckOutcome.aborted ErrorCode.operation_aborted)).2.length
      = (["topic"] : List String).length :=
  ⟨trivial,
    subscribe_reason_vector_length ["topic"]
      (AckOutcome.aborted ErrorCode.operation_aborted) trivial⟩

/-- C10: an early-error completion carries only sentinel reason codes —
every entry of the vector a subscribe or unsubscribe hands its handler on
an error path is `reason_codes::empty`, and the reason code a QoS 1/2
publish hands its handler on an error path is `reason_codes::empty`. -/
theorem error_completion_yields_empty_sentinels
    (filters topics : List String) (e : ErrorCode) :
    (∀ r ∈ (subscribeComplete filters (AckOutcome.aborted e)).2,
        r = ReasonCode.empty)
    ∧ (∀ r ∈ (unsubscribeComplete topics (AckOutcome.aborted e)).2,
        r = ReasonCode.empty)
    ∧ (publishAckComplete (PubOutcome.aborted e)).2 = ReasonCode.empty :=
  ⟨fun _r hr => List.eq_of_mem_replicate hr,
   fun _r hr => List.eq_of_mem_replicate hr,
   rfl⟩

/-- C10 witness: the sentinel contract read off at the one-entry subscribe
of the cancellation test. -/
theorem error_completion_yields_empty_sentinels_witness :
    ReasonCode.empty ∈ (subscribeComplete ["topic"]
        (AckOutcome.aborted ErrorCode.operation_aborted)).2
    ∧ ReasonCode.empty = ReasonCode.empty :=
  ⟨by decide,
    (error_completion_yields_empty_sentinels ["topic"] ["topic"]
      ErrorCode.operation_aborted).1 ReasonCode.empty (by decide)⟩

/- ### Disconnect (mqtt_client.hpp lines 500-571) -/

/-- A DISCONNECT packet: its reason code and its properties, modelled as
key-value pairs (disconnect_props{} is the empty set). -/
structure DisconnectPacket where
  rc : ReasonCode
  props : List (String × String)
  deriving DecidableEq, Repr

/-- The observable steps of an orderly disconnect, in order. -/
inductive DisconnectEvent where
  | wrote (p : DisconnectPacket)
  | drained
  | becameCancelled
  deriving DecidableEq, Repr

/-- Modelled from the spec: `detail::async_disconnect` — send a DISCONNECT
packet with the given reason code and properties, wait for the write to
drain, then transition the client to the cancelled state. The events are
returned in the order they happen. -/
def asyncDisconnect (rc : ReasonCode) (props : List (String × String))
    (s : ClientState) : ClientState × List DisconnectEvent :=
  ({ s with lifecycle := Lifecycle.cancelled },
   [DisconnectEvent.wrote ⟨rc, props⟩, DisconnectEvent.drained,
    DisconnectEvent.becameCancelled])

/-- mqtt_client::async_disconnect(token) (mqtt_client.hpp lines 565-571):
delegates to async_disconnect(disconnect_rc_e::normal_disconnection,
disconnect_props{}, token). -/
def asyncDisconnectDefault (s : ClientState) : ClientState × List DisconnectEvent :=
  asyncDisconnect normal_disconnection [] s

/-- C7: disconnect without an explicit reason code writes a DISCONNECT
packet carrying normal_disconnection (0x00) with empty properties, the
drain happens after the write and before the transition, and the client
ends cancelled. -/
theorem default_disconnect_normal (s : ClientState) :
    (asyncDisconnectDefault s).2
      = [DisconnectEvent.wrote ⟨normal_disconnection, []⟩,
         DisconnectEvent.drained, DisconnectEvent.becameCancelled]
    ∧ normal_disconnection = ReasonCode.code 0
    ∧ (asyncDisconnectDefault s).1.lifecycle = Lifecycle.cancelled :=
  ⟨rfl, rfl, rfl⟩

/-- C7 witness: the default-disconnect contract at the concrete running
client state. -/
theorem default_disconnect_normal_witness :
    (asyncDisconnectDefault cancelStateW).2
      = [DisconnectEvent.wrote ⟨normal_disconnection, []⟩,
         DisconnectEvent.drained, DisconnectEvent.becameCancelled]
    ∧ normal_disconnection = ReasonCode.code 0
    ∧ (asyncDisconnectDefault cancelStateW).1.lifecycle = Lifecycle.cancelled :=
  default_disconnect_normal cancelStateW

/- ### Single-topic overloads (mqtt_client.hpp lines 353-362 and 450-459) -/

/-- One subscribe_topic entry: the topic filter and its subscribe_options,
the options kept abstract as a payload value. -/
structure SubscribeTopic where
  filter : String
  options : Nat
  deriving DecidableEq, Repr

/-- What a call of the vector async_subscribe overload hands to
subscribe_op::perform: the topic list and the SUBSCRIBE properties. -/
structure SubscribeCall where
  topics : List SubscribeTopic
  props : List (String × String)
  deriving DecidableEq, Repr

/-- What a call of the vector async_unsubscribe overload hands to
unsubscribe_op::perform: the topic list and the UNSUBSCRIBE properties. -/
structure UnsubscribeCall where
  topics : List String
  props : List (String × String)
  deriving DecidableEq, Repr

/-- mqtt_client::async_subscribe on a vector of topics (mqtt_client.hpp
lines 298-319): initiates subscribe_op{impl, handler}.perform(topics, props). -/
def asyncSubscribeVector (topics : List SubscribeTopic)
    (props : List (String × String)) : SubscribeCall :=
  ⟨topics, props⟩

/-- mqtt_client::async_subscribe on one topic (mqtt_client.hpp lines
353-362): calls the vector overload on std::vector{topic}. -/
def asyncSubscribeSingle (topic : SubscribeTopic)
    (props : List (String × String)) : SubscribeCall :=
  asyncSubscribeVector [topic] props

/-- mqtt_client::async_unsubscribe on a vector of topics (mqtt_client.hpp
lines 396-417): initiates unsubscribe_op{impl, handler}.perform(topics, props). -/
def asyncUnsubscribeVector (topics : List String)
    (props : List (String × String)) : UnsubscribeCall :=
  ⟨topics, props⟩

/-- mqtt_client::async_unsubscribe on one topic (mqtt_client.hpp lines
450-459): calls the vector overload on std::vector{topic}. -/
def asyncUnsubscribeSingle (topic : String)
    (props : List (String × String)) : UnsubscribeCall :=
  asyncUnsubscribeVector [topic] props

/-- The completion pipeline a subscribe call feeds: subscribe completion
over the call's topic filters. -/
def SubscribeCall.complete (c : SubscribeCall) (o : AckOutcome) :
    ErrorCode × List ReasonCode :=
  subscribeComplete (c.topics.map SubscribeTopic.filter) o

/-- The completion pipeline an unsubscribe call feeds. -/
def UnsubscribeCall.complete (c : UnsubscribeCall) (o : AckOutcome) :
    ErrorCode × List ReasonCode :=
  unsubscribeComplete c.topics o

/-- C9: the single-topic async_subscribe overload performs exactly the
vector overload's call on the one-element vector — the same SUBSCRIBE
request and the same completion values for every outcome — and likewise
for async_unsubscribe. -/
theorem single_topic_overloads_delegate (t : SubscribeTopic) (u : String)
    (props uprops : List (String × String)) (o : AckOutcome) :
    asyncSubscribeSingle t props = asyncSubscribeVector [t] props
    ∧ (asyncSubscribeSingle t props).complete o
        = (asyncSubscribeVector [t] props).complete o
    ∧ asyncUnsubscribeSingle u uprops = asyncUnsubscribeVector [u] uprops
    ∧ (asyncUnsubscribeSingle u uprops).complete o
        = (asyncUnsubscribeVector [u] uprops).complete o :=
  ⟨rfl, rfl, rfl, rfl⟩

/-- C9 witness: the delegation read off at the "topic" filter the
cancellation tests subscribe to and unsubscribe from. -/
theorem single_topic_overloads_delegate_witness :
    asyncSubscribeSingle ⟨"topic", 0⟩ [] = asyncSubscribeVector [⟨"topic", 0⟩] []
    ∧ (asyncSubscribeSingle ⟨"topic", 0⟩ []).complete
          (AckOutcome.aborted ErrorCode.operation_aborted)
        = (asyncSubscribeVector [⟨"topic", 0⟩] []).complete
          (AckOutcome.aborted ErrorCode.operation_aborted)
    ∧ asyncUnsubscribeSingle "topic" [] = asyncUnsubscribeVector ["topic"] []
    ∧ (asyncUnsubscribeSingle "topic" []).complete
          (AckOutcome.aborted ErrorCode.operation_aborted)
        = (asyncUnsubscribeVector ["topic"] []).complete
          (AckOutcome.aborted ErrorCode.operation_aborted) :=
  single_topic_overloads_delegate ⟨"topic", 0⟩ "topic" [] []
    (AckOutcome.aborted ErrorCode.operation_aborted)

end AsyncMqtt5
